import Mathlib

/-!
Shallow Lean embedding of the request-authentication and connector subsystem
of the document-api service (iamprashant/voice-ai).

Python conventions modelled explicitly:
  * truthiness of values (PyVal and pyTruthy);
  * the exception class hierarchy of the repository, as an inductive type
    PyExc, together with the class-test predicates used by except clauses;
  * fallible operations return Except PyExc together with explicit state.
-/

namespace DocumentApi

/-- Python values as they occur in decoded JWT payloads and resolver
responses: None, int, str, bool, list, dict (string-keyed). -/
inductive PyVal : Type where
  | none : PyVal
  | int (n : Int) : PyVal
  | str (s : String) : PyVal
  | bool (b : Bool) : PyVal
  | list (xs : List PyVal) : PyVal
  | dict (xs : List (String × PyVal)) : PyVal

/-- Python truthiness of a value (bool(v)): None, 0, empty string, empty
list and empty dict are falsy. -/
def pyTruthy : PyVal → Bool
  | .none => false
  | .int n => !(n == 0)
  | .str s => !(s == "")
  | .bool b => b
  | .list xs => !xs.isEmpty
  | .dict xs => !xs.isEmpty

/-- dict.get(k): first binding for the key, None when absent. -/
def dictGet (d : List (String × PyVal)) (k : String) : Option PyVal :=
  match d.find? (fun e => e.1 == k) with
  | some e => some e.2
  | Option.none => Option.none

/-- k in d membership test on a Python dict. -/
def dictHasKey (d : List (String × PyVal)) (k : String) : Bool :=
  (d.find? (fun e => e.1 == k)).isSome

/-- Truthiness of dict.get(k): false when the key is absent, Python
truthiness of the value otherwise. -/
def pyTruthyOpt : Option PyVal → Bool
  | Option.none => false
  | some v => pyTruthy v

/-- Truthiness of conn.headers.get(k): a missing header is None (falsy),
an empty header value is falsy, anything else truthy. -/
def headerTruthy : Option String → Bool
  | Option.none => false
  | some s => !(s == "")

/-- Value held by an error_code attribute: the base RapidaException stores
a rendered string, BridgeException stores the raw numeric code. -/
inductive ErrorCodeVal : Type where
  | str (s : String) : ErrorCodeVal
  | int (n : Int) : ErrorCodeVal
deriving DecidableEq, Repr

/-- Composite error code built by RapidaException.__init__:
the prefix, the service code and the numeric code joined by underscores. -/
def rapidaErrorCode (pfx service_code : String) (error_code : Int) :
    ErrorCodeVal :=
  .str (pfx ++ "_" ++ service_code ++ "_" ++ toString error_code)

/-- Exceptions of the repository that the embedded code can raise, one
constructor per concrete class, carrying the arguments of its __init__.
The last three constructors are exceptions from outside the RapidaException
taxonomy (builtin ValueError, pydantic ValidationError, and a raw
third-party SDK exception). -/
inductive PyExc : Type where
  | missingAuthorizationKey (auth_type message : String) : PyExc
  | invalidAuthorizationToken (message : String) : PyExc
  | connectorClientFailure (connector_name message : String) : PyExc
  | connectorIllegalName (connector_name message : String) : PyExc
  | connectorNotThere (connector_name message : String) : PyExc
  | connectorClientInternalFailure (connector_name message : String) : PyExc
  | bridgeClient (bridge_name message : String) : PyExc
  | bridgeInternal (bridge_name message : String) : PyExc
  | valueError (message : String) : PyExc
  | validationError (message : String) : PyExc
  | rawError (message : String) : PyExc
deriving DecidableEq, Repr

/-- Class test for except AuthenticationException: only
MissingAuthorizationKeyException subclasses AuthenticationException.
InvalidAuthorizationTokenException extends RapidaException directly
(authentication_exception.py line 40), so it is NOT caught by an
except AuthenticationException clause. -/
def PyExc.isAuthenticationException : PyExc → Bool
  | .missingAuthorizationKey _ _ => true
  | _ => false

/-- Class test for except RapidaException: everything of the taxonomy,
but not the builtin ValueError, pydantic ValidationError or raw SDK
exceptions. -/
def PyExc.isRapidaException : PyExc → Bool
  | .valueError _ => false
  | .validationError _ => false
  | .rawError _ => false
  | _ => true

/-- Class test for except BridgeException. -/
def PyExc.isBridgeException : PyExc → Bool
  | .bridgeClient _ _ => true
  | .bridgeInternal _ _ => true
  | _ => false

/-- Class test for the two connector-exception subtypes relevant to the
registry resolve path. -/
def PyExc.isConnectorNotThere : PyExc → Bool
  | .connectorNotThere _ _ => true
  | _ => false

/-- status_code attribute as set by the __init__ chains; none for
exceptions that carry no such attribute. -/
def PyExc.status_code : PyExc → Option Nat
  | .missingAuthorizationKey _ _ => some 400
  | .invalidAuthorizationToken _ => some 401
  | .connectorClientFailure _ _ => some 422
  | .connectorIllegalName _ _ => some 422
  | .connectorNotThere _ _ => some 422
  | .connectorClientInternalFailure _ _ => some 422
  | .bridgeClient _ _ => some 400
  | .bridgeInternal _ _ => some 400
  | .valueError _ => Option.none
  | .validationError _ => Option.none
  | .rawError _ => Option.none

/-- message attribute as set by the __init__ chains:
AuthenticationException prefixes the auth type, ConnectorException and
BridgeException prefix the connector or bridge name. -/
def PyExc.message : PyExc → Option String
  | .missingAuthorizationKey auth_type m => some (auth_type ++ ": " ++ m)
  | .invalidAuthorizationToken m => some m
  | .connectorClientFailure n m => some (n ++ ": " ++ m)
  | .connectorIllegalName n m => some (n ++ ": " ++ m)
  | .connectorNotThere n m => some (n ++ ": " ++ m)
  | .connectorClientInternalFailure n m => some (n ++ ": " ++ m)
  | .bridgeClient n m => some (n ++ ": " ++ m)
  | .bridgeInternal n m => some (n ++ ": " ++ m)
  | .valueError _ => Option.none
  | .validationError _ => Option.none
  | .rawError _ => Option.none

/-- error_code attribute: RapidaException.__init__ renders the composite
string, but BridgeException.__init__ (bridges_exceptions.py lines 16-21)
does not delegate to it and assigns the raw numeric code instead. -/
def PyExc.error_code : PyExc → Option ErrorCodeVal
  | .missingAuthorizationKey _ _ => some (rapidaErrorCode "RAPIDA" "KN_API" 3001)
  | .invalidAuthorizationToken _ => some (rapidaErrorCode "RAPIDA" "KN_API" 3002)
  | .connectorClientFailure _ _ => some (rapidaErrorCode "RAPIDA" "KN_API" 2001)
  | .connectorIllegalName _ _ => some (rapidaErrorCode "RAPIDA" "KN_API" 2002)
  | .connectorNotThere _ _ => some (rapidaErrorCode "RAPIDA" "KN_API" 2003)
  | .connectorClientInternalFailure _ _ => some (rapidaErrorCode "RAPIDA" "KN_API" 2004)
  | .bridgeClient _ _ => some (.int 1001)
  | .bridgeInternal _ _ => some (.int 1002)
  | .valueError _ => Option.none
  | .validationError _ => Option.none
  | .rawError _ => Option.none

/-- str(exc) for taxonomy members, per RapidaException.__str__:
the error_code (a Python int formats as its decimal digits), a dash, and
the message. -/
def PyExc.pyStr (e : PyExc) : String :=
  match e.error_code, e.message with
  | some (.str s), some m => s ++ " - " ++ m
  | some (.int n), some m => toString n ++ " - " ++ m
  | _, _ => ""

/-! Python int(str) conversion: optional surrounding ASCII whitespace, an
optional sign, then a nonempty digit run where single underscores may
separate digits. Anything else raises ValueError. -/

/-- ASCII whitespace characters stripped by int(str). -/
def isPyWs (c : Char) : Bool :=
  c == ' ' || c == '\t' || c == '\n' || c == '\r' || c == '\x0b' || c == '\x0c'

/-- Digit-run validity after the first digit: a single underscore must be
followed by a digit, every other character must itself be a digit. -/
def pyDigitsAux : List Char → Bool
  | [] => true
  | '_' :: rest =>
    match rest with
    | c :: rest2 => c.isDigit && pyDigitsAux rest2
    | [] => false
  | c :: rest => c.isDigit && pyDigitsAux rest

/-- Digit-run validity: nonempty, starts with a digit, underscores only
singly and between digits. -/
def pyDigitsValid : List Char → Bool
  | [] => false
  | c :: rest => c.isDigit && pyDigitsAux rest

/-- Numeric value of a valid digit run, ignoring underscores. -/
def pyDigitsVal (cs : List Char) : Nat :=
  (cs.filter (fun c => !(c == '_'))).foldl (fun a c => a * 10 + (c.toNat - 48)) 0

/-- int(s) for a Python string: some n on success, none when the call
raises ValueError. -/
def pyIntOfString (s : String) : Option Int :=
  let cs := ((s.data.dropWhile isPyWs).reverse.dropWhile isPyWs).reverse
  match cs with
  | [] => Option.none
  | c :: rest =>
    if c == '-' then
      if pyDigitsValid rest then some (-(pyDigitsVal rest : Int)) else Option.none
    else if c == '+' then
      if pyDigitsValid rest then some ((pyDigitsVal rest : Int)) else Option.none
    else
      if pyDigitsValid (c :: rest) then some ((pyDigitsVal (c :: rest) : Int))
      else Option.none

/-! Principal data model (app/middlewares/auth/user.py). -/

/-- Account payload of the external identity response. -/
structure Account : Type where
  id : Int
  name : String
  email : String
deriving DecidableEq, Repr

/-- Token payload of the external identity response. -/
structure Token : Type where
  id : Int
  token : String
  tokenType : String
deriving DecidableEq, Repr

/-- Organization role of the external identity response. -/
structure OrganizationRole : Type where
  id : Int
  organizationId : Int
  role : String
  organizationName : String
deriving DecidableEq, Repr

/-- Project role entry of the external identity response. -/
structure ProjectRole : Type where
  id : Int
  projectId : Int
  role : String
  projectName : String
deriving DecidableEq, Repr

/-- AuthenticatedUser state: the pydantic model fields, with
currentProject defaulting to None. -/
structure AuthenticatedUserS : Type where
  user : Account
  token : Token
  organizationRole : OrganizationRole
  projectRoles : List ProjectRole
  currentProject : Option ProjectRole
deriving DecidableEq, Repr

/-- Principal variants attached to a request: AuthenticatedUser,
InternalAuthenticatedUser (JWT claims) and AnonymousUser. -/
inductive UserV : Type where
  | authenticated (u : AuthenticatedUserS) : UserV
  | internal (userId projectId organizationId : Int) : UserV
  | anonymous : UserV
deriving DecidableEq, Repr

/-- AuthenticatedUser.select_project: iterates projectRoles and compares
each projectId with int(project_id). The int conversion sits inside the
loop body, so it is evaluated only when projectRoles is nonempty; an
invalid project_id string then raises ValueError at the first iteration.
On the first match currentProject is set and the entry returned; with no
match the user is unchanged and None is returned. -/
def select_project (u : AuthenticatedUserS) (project_id : String) :
    Except PyExc (AuthenticatedUserS × Option ProjectRole) :=
  match u.projectRoles with
  | [] => .ok (u, Option.none)
  | _ :: _ =>
    match pyIntOfString project_id with
    | Option.none =>
      .error (.valueError ("invalid literal for int() with base 10: " ++ project_id))
    | some n =>
      match u.projectRoles.find? (fun p => p.projectId == n) with
      | some p => .ok ({ u with currentProject := some p }, some p)
      | Option.none => .ok (u, Option.none)

/-! Pydantic-style parsing of resolver payloads into the models above.
The embedding accepts exactly-typed payloads (int fields from Python
ints or bools or decimal strings, str fields from strings); the wider
numeric coercion rules of the library are not needed by any claim. -/

/-- Pydantic int field parsing. -/
def parsePyInt : Option PyVal → Option Int
  | some (.int n) => some n
  | some (.bool b) => some (if b then 1 else 0)
  | some (.str s) => pyIntOfString s
  | _ => Option.none

/-- Pydantic str field parsing. -/
def parsePyStr : Option PyVal → Option String
  | some (.str s) => some s
  | _ => Option.none

/-- Parse an Account payload. -/
def parseAccount : Option PyVal → Option Account
  | some (.dict d) =>
    match parsePyInt (dictGet d "id"), parsePyStr (dictGet d "name"),
        parsePyStr (dictGet d "email") with
    | some i, some n, some e => some ⟨i, n, e⟩
    | _, _, _ => Option.none
  | _ => Option.none

/-- Parse a Token payload. -/
def parseToken : Option PyVal → Option Token
  | some (.dict d) =>
    match parsePyInt (dictGet d "id"), parsePyStr (dictGet d "token"),
        parsePyStr (dictGet d "tokenType") with
    | some i, some t, some ty => some ⟨i, t, ty⟩
    | _, _, _ => Option.none
  | _ => Option.none

/-- Parse an OrganizationRole payload. -/
def parseOrganizationRole : Option PyVal → Option OrganizationRole
  | some (.dict d) =>
    match parsePyInt (dictGet d "id"), parsePyInt (dictGet d "organizationId"),
        parsePyStr (dictGet d "role"), parsePyStr (dictGet d "organizationName") with
    | some i, some o, some r, some n => some ⟨i, o, r, n⟩
    | _, _, _, _ => Option.none
  | _ => Option.none

/-- Parse one ProjectRole payload. -/
def parseProjectRole : PyVal → Option ProjectRole
  | .dict d =>
    match parsePyInt (dictGet d "id"), parsePyInt (dictGet d "projectId"),
        parsePyStr (dictGet d "role"), parsePyStr (dictGet d "projectName") with
    | some i, some p, some r, some n => some ⟨i, p, r, n⟩
    | _, _, _, _ => Option.none
  | _ => Option.none

/-- Parse the projectRoles list field. -/
def parseProjectRoles : Option PyVal → Option (List ProjectRole)
  | some (.list xs) => xs.mapM parseProjectRole
  | _ => Option.none

/-- Parse the optional currentProject field (defaults to None when absent
or null). -/
def parseCurrentProject : Option PyVal → Option (Option ProjectRole)
  | Option.none => some Option.none
  | some .none => some Option.none
  | some v => (parseProjectRole v).map some

/-- AuthenticatedUser(**user_info): pydantic model construction from the
resolver dict; None models a raised ValidationError. -/
def parseAuthenticatedUser (d : List (String × PyVal)) :
    Option AuthenticatedUserS :=
  match parseAccount (dictGet d "user"), parseToken (dictGet d "token"),
      parseOrganizationRole (dictGet d "organizationRole"),
      parseProjectRoles (dictGet d "projectRoles"),
      parseCurrentProject (dictGet d "currentProject") with
  | some a, some t, some o, some ps, some cp => some ⟨a, t, o, ps, cp⟩
  | _, _, _, _, _ => Option.none

/-- InternalAuthenticatedUser.parse_obj(payload): requires the three int
claims; a failing parse models a raised pydantic ValidationError. -/
def parseInternalUser (payload : List (String × PyVal)) : Except PyExc UserV :=
  match parsePyInt (dictGet payload "userId"),
      parsePyInt (dictGet payload "projectId"),
      parsePyInt (dictGet payload "organizationId") with
  | some u, some p, some o => .ok (.internal u p o)
  | _, _, _ => .error (.validationError "validation error for InternalAuthenticatedUser")

/-! JWT authentication backend
(app/middlewares/jwt_authorization_middleware.py). -/

/-- Fields of JwtAuthenticationConfig as consumed by JwtAuthBackend:
the header key read from the connection, the decode secret, the algorithm
allow-list, and the strict flag. -/
structure JwtAuthenticationConfig : Type where
  header_key : String
  secret_key : String
  algorithms : List String
  strict : Bool
deriving DecidableEq, Repr

/-- Outcome of the third-party jwt.decode call: a decoded payload dict,
or a raised jwt.DecodeError with its message. -/
inductive JwtDecodeOutcome : Type where
  | ok (payload : List (String × PyVal)) : JwtDecodeOutcome
  | decodeError (message : String) : JwtDecodeOutcome

/-- Body of JwtAuthBackend.authenticate together with its DecodeError
handler (which re-raises InvalidAuthorizationTokenException from inside
the except clause, so that exception leaves the try statement): missing
or empty header raises MissingAuthorizationKeyException; a decode failure
becomes InvalidAuthorizationTokenException; a falsy payload or a falsy
userId claim raises InvalidAuthorizationTokenException; otherwise the
payload is parsed into an InternalAuthenticatedUser. -/
def jwtAuthBody (config : JwtAuthenticationConfig)
    (headers : String → Option String) (decode : JwtDecodeOutcome) :
    Except PyExc (Bool × UserV) :=
  if !(headerTruthy (headers config.header_key)) then
    .error (.missingAuthorizationKey "JWT" "Missing Authorization Key")
  else
    match decode with
    | .decodeError msg =>
      .error (.invalidAuthorizationToken ("unable to decode given token. " ++ msg))
    | .ok payload =>
      if !(pyTruthy (.dict payload)) || !(pyTruthyOpt (dictGet payload "userId")) then
        .error (.invalidAuthorizationToken "invalid token payload.")
      else
        match parseInternalUser payload with
        | .ok u => .ok (true, u)
        | .error e => .error e

/-- JwtAuthBackend.authenticate: runs the body, then the
except AuthenticationException clause re-raises when config.strict holds
and degrades to (False, AnonymousUser()) otherwise. Only
MissingAuthorizationKeyException is an AuthenticationException, so every
other raised exception propagates unchanged. -/
def jwtAuthenticate (config : JwtAuthenticationConfig)
    (headers : String → Option String) (decode : JwtDecodeOutcome) :
    Except PyExc (Bool × UserV) :=
  match jwtAuthBody config headers decode with
  | .error e =>
    if e.isAuthenticationException then
      if config.strict then .error e else .ok (false, .anonymous)
    else .error e
  | .ok r => .ok r

/-! Remote-token authentication backend
(app/middlewares/token_authorization_middleware.py). -/

/-- Outcome of the awaited user_info_resolver call: the response dict, or
a raised BridgeException subtype with its bridge name and message. -/
inductive ResolveOutcome : Type where
  | ok (user_info : List (String × PyVal)) : ResolveOutcome
  | bridgeClientError (bridge_name message : String) : ResolveOutcome
  | bridgeInternalError (bridge_name message : String) : ResolveOutcome

/-- Body of TokenAuthBackend.authenticate including the inner try: missing
or empty authorization or x-auth-id header raises
MissingAuthorizationKeyException; a BridgeException from the resolver is
re-raised as InvalidAuthorizationTokenException with str(err) folded into
the message; a falsy response or one without a user key raises
InvalidAuthorizationTokenException; then the AuthenticatedUser is built
and, when the x-project-id header is truthy, select_project runs on it. -/
def tokenAuthBody (headers : String → Option String) (resolve : ResolveOutcome) :
    Except PyExc (Bool × UserV) :=
  if !(headerTruthy (headers "authorization")) || !(headerTruthy (headers "x-auth-id")) then
    .error (.missingAuthorizationKey "token-auth" "Missing Authorization Key")
  else
    match resolve with
    | .bridgeClientError n m =>
      .error (.invalidAuthorizationToken
        ("Token request is not valid. " ++ (PyExc.bridgeClient n m).pyStr))
    | .bridgeInternalError n m =>
      .error (.invalidAuthorizationToken
        ("Token request is not valid. " ++ (PyExc.bridgeInternal n m).pyStr))
    | .ok user_info =>
      if !(pyTruthy (.dict user_info)) || !(dictHasKey user_info "user") then
        .error (.invalidAuthorizationToken "illegal token payload.")
      else
        match parseAuthenticatedUser user_info with
        | Option.none => .error (.validationError "validation error for AuthenticatedUser")
        | some user =>
          if !(headerTruthy (headers "x-project-id")) then
            .ok (true, .authenticated user)
          else
            match select_project user ((headers "x-project-id").getD "") with
            | .error e => .error e
            | .ok (u2, _) => .ok (true, .authenticated u2)

/-- TokenAuthBackend.authenticate: the outer except clauses catch
AuthenticationException and RapidaException and always degrade to
(False, AnonymousUser()) (the strict branch is commented out in the
source); exceptions outside the RapidaException hierarchy propagate. -/
def tokenAuthenticate (headers : String → Option String)
    (resolve : ResolveOutcome) : Except PyExc (Bool × UserV) :=
  match tokenAuthBody headers resolve with
  | .error e =>
    if e.isAuthenticationException then .ok (false, .anonymous)
    else if e.isRapidaException then .ok (false, .anonymous)
    else .error e
  | .ok r => .ok r

/-! Boundary error translator (app/exceptions/__init__.py and
app/commons/j_response.py): a RapidaException reaching the request
boundary becomes a JResponse envelope with success, the error content and
the status code; a pydantic ValidationError becomes a 400 envelope;
exceptions without a registered handler produce no envelope here. -/

/-- Uniform transport envelope rendered by JResponse for handled errors. -/
structure ErrorEnvelope : Type where
  success : Bool
  error_message : String
  detail : String
  code : Nat
deriving DecidableEq, Repr

/-- Envelope produced by the registered exception handlers for the
outcome of an authentication backend: none when no exception crosses the
boundary or when the exception has no registered handler. -/
def boundaryEnvelope : Except PyExc (Bool × UserV) → Option ErrorEnvelope
  | .ok _ => Option.none
  | .error (.validationError m) =>
    some ⟨false, "validation error for request while parsing the response.", m, 400⟩
  | .error e =>
    match e.status_code, e.message with
    | some sc, some m =>
      some ⟨decide (200 ≤ sc) && decide (sc ≤ 299), m, e.pyStr, sc⟩
    | _, _ => Option.none

/-! Connector registry resolve (app/connectors/connector_factory.py).
The request-scoped datasource map is modelled as an association list from
connector name to the repr of the stored connector object. -/

/-- repr of one datasource entry: quoted key, colon, object repr. -/
def pyDictEntryRepr (e : String × String) : String :=
  "\x27" ++ e.1 ++ "\x27: " ++ e.2

/-- Comma-separated entry list of the Python dict repr. -/
def pyDictEntries : List (String × String) → String
  | [] => ""
  | [e] => pyDictEntryRepr e
  | e :: rest => pyDictEntryRepr e ++ ", " ++ pyDictEntries rest

/-- Python repr of the datasource dict, as interpolated into the error
message by get_me. -/
def pyDictRepr (ds : List (String × String)) : String :=
  "\x7b" ++ pyDictEntries ds ++ "\x7d"

/-- Lookup in the datasource map. -/
def datasourceGet (ds : List (String × String)) (k : String) : Option String :=
  match ds.find? (fun e => e.1 == k) with
  | some e => some e.2
  | Option.none => Option.none

/-- The dependency closure returned by get_me(connection_name): indexing
the datasource dict raises KeyError for an absent name, and the handler
raises ConnectorIllegalNameException whose message names the requested
key and interpolates the whole datasource dict. -/
def getMe (connection_name : String) (ds : List (String × String)) :
    Except PyExc String :=
  match datasourceGet ds connection_name with
  | some c => .ok c
  | Option.none =>
    .error (.connectorIllegalName connection_name
      (connection_name ++ " not found in context. choose possible keys " ++ pyDictRepr ds))

/-! AWS STS connector (app/connectors/aws/sts_connector.py and
app/connectors/aws/__init__.py). The class-level credentials store is
modelled as explicit state threaded through the call; timestamps are
integers and the max age is 600 seconds. -/

/-- AWSAuth configuration fields consumed by the connector. -/
structure AWSAuth : Type where
  region : Option String
  access_key_id : Option String
  secret_access_key : Option String
  assume_role : Option String
deriving DecidableEq, Repr

/-- Credential payload dict built by get_credentials and by the
assume-role branch of get_temporary_credentials. -/
structure Cred : Type where
  access_key : String
  secret_key : String
  token : Option String
  region : Option String
deriving DecidableEq, Repr

/-- Frozen credential fields returned by the session in
AWSConnector.get_credentials. -/
structure FrozenCredentials : Type where
  access_key : String
  secret_key : String
  token : Option String
deriving DecidableEq, Repr

/-- Credentials section of the assume_role response. -/
structure AssumeRoleCredentials : Type where
  accessKeyId : String
  secretAccessKey : String
  sessionToken : String
deriving DecidableEq, Repr

/-- Failure modes of the underlying botocore client call, matching the
except clauses of STSConnector._operate: ConnectionError, ClientError
with its response error code, and any other exception. -/
inductive BotoFailure : Type where
  | connectionError (message : String) : BotoFailure
  | clientError (code message : String) : BotoFailure
  | otherError (message : String) : BotoFailure

/-- External outcomes for one credential resolution: the raw result of
the session get_credentials call (whose failure is NOT wrapped by
_operate) and the raw result of the assume_role client operation. -/
structure StsEnv : Type where
  get_credentials_result : Except String FrozenCredentials
  assume_role_result : Except BotoFailure AssumeRoleCredentials

/-- The class-level __credentials_store: session name to
(credential payload, issue timestamp). -/
def CredStore : Type := List (String × Cred × Int)

/-- Store lookup (dict.get). -/
def storeGet (store : CredStore) (k : String) : Option (Cred × Int) :=
  match store.find? (fun e => e.1 == k) with
  | some e => some e.2
  | Option.none => Option.none

/-- Store deletion (del store[k]). -/
def storeErase (store : CredStore) (k : String) : CredStore :=
  store.filter (fun e => !(e.1 == k))

/-- Store assignment (store[k] = v): replace in place or append. -/
def storeSet : CredStore → String → Cred × Int → CredStore
  | [], k, v => [(k, v)]
  | e :: rest, k, v =>
    if e.1 == k then (k, v) :: rest else e :: storeSet rest k v

/-- STSConnector._operate("assume_role", ...): wraps every botocore
failure into ConnectorClientFailureException carrying the connector name
sts, replacing the message by a fixed one for the disabled-region client
error code. -/
def operateAssumeRole (env : StsEnv) : Except PyExc AssumeRoleCredentials :=
  match env.assume_role_result with
  | .ok r => .ok r
  | .error (.connectionError m) => .error (.connectorClientFailure "sts" m)
  | .error (.clientError c m) =>
    .error (.connectorClientFailure "sts"
      (if c == "STS.Client.exceptions.RegionDisabledException" then
        "Illegal region for sts." else m))
  | .error (.otherError m) => .error (.connectorClientFailure "sts" m)

/-- One credential resolution as dispatched by get_temporary_credentials:
with a falsy assume_role the raw get_credentials outcome is used (its
failure propagates unwrapped), otherwise the wrapped assume_role
operation; successes are shaped into the credential payload dict with the
region taken from the session configuration. -/
def resolvedCred (config : AWSAuth) (env : StsEnv) : Except PyExc Cred :=
  if !(headerTruthy config.assume_role) then
    match env.get_credentials_result with
    | .ok fc => .ok ⟨fc.access_key, fc.secret_key, fc.token, config.region⟩
    | .error e => .error (.rawError e)
  else
    match operateAssumeRole env with
    | .ok r => .ok ⟨r.accessKeyId, r.secretAccessKey, some r.sessionToken, config.region⟩
    | .error e => .error e

/-- Result of one get_temporary_credentials call: the returned payload or
propagated exception, the store state afterwards, and how many resolver
round-trips were made. -/
structure StsOutcome : Type where
  result : Except PyExc Cred
  store : CredStore
  resolverCalls : Nat

/-- Tail of get_temporary_credentials after the cache check: resolve,
then on success store the payload under the session name with the current
time and return it; a raised exception leaves the store untouched because
the assignment sits after the awaited call. -/
def resolveAndStore (config : AWSAuth) (env : StsEnv) (now : Int)
    (store : CredStore) (session_name : String) : StsOutcome :=
  match resolvedCred config env with
  | .ok c => ⟨.ok c, storeSet store session_name (c, now), 1⟩
  | .error e => ⟨.error e, store, 1⟩

/-- STSConnector.get_temporary_credentials: a stored entry younger than
600 seconds is returned with no resolver call; an entry aged 600 seconds
or more is deleted (lazy eviction) before resolving; an absent entry goes
straight to resolution. -/
def get_temporary_credentials (config : AWSAuth) (env : StsEnv) (now : Int)
    (store : CredStore) (session_name : String) : StsOutcome :=
  match storeGet store session_name with
  | some ct =>
    if now - ct.2 < 600 then ⟨.ok ct.1, store, 0⟩
    else resolveAndStore config env now (storeErase store session_name) session_name
  | Option.none => resolveAndStore config env now store session_name

/-- Exception carried by an Except outcome, if any. -/
def raisedExc : Except PyExc String → Option PyExc
  | .error e => some e
  | .ok _ => Option.none

/-! Shared helper lemmas. -/

/-- Assigning a key and reading it back yields the assigned value. -/
theorem storeGet_storeSet (store : CredStore) (k : String) (v : Cred × Int) :
    storeGet (storeSet store k v) k = some v := by
  induction store with
  | nil => simp [storeSet, storeGet, List.find?]
  | cons e rest ih =>
    by_cases he : e.1 = k
    · simp [storeSet, he, storeGet, List.find?]
    · have he2 : (e.1 == k) = false := beq_eq_false_iff_ne.mpr he
      simp only [storeSet, he2]
      simpa [storeGet, List.find?, he2] using ih

/-- Cache hit: an entry younger than 600 seconds is returned unchanged
with no resolver call. -/
theorem gtc_hit (config : AWSAuth) (env : StsEnv) (now : Int)
    (store : CredStore) (sn : String) (c : Cred) (t : Int)
    (h : storeGet store sn = some (c, t)) (ha : now - t < 600) :
    get_temporary_credentials config env now store sn = ⟨.ok c, store, 0⟩ := by
  simp [get_temporary_credentials, h, ha]

/-- Cache miss: with no stored entry the call resolves and stores. -/
theorem gtc_miss (config : AWSAuth) (env : StsEnv) (now : Int)
    (store : CredStore) (sn : String)
    (h : storeGet store sn = Option.none) :
    get_temporary_credentials config env now store sn =
      resolveAndStore config env now store sn := by
  simp [get_temporary_credentials, h]

/-- Expired entry: an entry aged 600 seconds or more is evicted before
resolving. -/
theorem gtc_expired (config : AWSAuth) (env : StsEnv) (now : Int)
    (store : CredStore) (sn : String) (c : Cred) (t : Int)
    (h : storeGet store sn = some (c, t)) (ha : ¬(now - t < 600)) :
    get_temporary_credentials config env now store sn =
      resolveAndStore config env now (storeErase store sn) sn := by
  simp [get_temporary_credentials, h, ha]

/-- Successful resolution stores the payload with the current time. -/
theorem resolveAndStore_ok (config : AWSAuth) (env : StsEnv) (now : Int)
    (store : CredStore) (sn : String) (c : Cred)
    (h : resolvedCred config env = .ok c) :
    resolveAndStore config env now store sn =
      ⟨.ok c, storeSet store sn (c, now), 1⟩ := by
  simp [resolveAndStore, h]

/-- Failed resolution propagates the exception and leaves the store as it
was handed in. -/
theorem resolveAndStore_error (config : AWSAuth) (env : StsEnv) (now : Int)
    (store : CredStore) (sn : String) (e : PyExc)
    (h : resolvedCred config env = .error e) :
    resolveAndStore config env now store sn = ⟨.error e, store, 1⟩ := by
  simp [resolveAndStore, h]

/-- Exactly one resolver round-trip happens on the resolve path. -/
theorem resolveAndStore_calls (config : AWSAuth) (env : StsEnv) (now : Int)
    (store : CredStore) (sn : String) :
    (resolveAndStore config env now store sn).resolverCalls = 1 := by
  cases h : resolvedCred config env with
  | ok c => simp [resolveAndStore, h]
  | error e => simp [resolveAndStore, h]

/-- With a truthy assume_role every resolution failure is the wrapped
ConnectorClientFailureException for the sts connector. -/
theorem resolvedCred_error_of_role (config : AWSAuth) (env : StsEnv)
    (e : PyExc) (hrole : headerTruthy config.assume_role = true)
    (h : resolvedCred config env = .error e) :
    ∃ m, e = .connectorClientFailure "sts" m := by
  rw [resolvedCred, hrole] at h
  simp only [Bool.not_true] at h
  cases henv : env.assume_role_result with
  | ok r => rw [operateAssumeRole] at h; rw [henv] at h; simp at h
  | error bf =>
    rw [operateAssumeRole] at h; rw [henv] at h
    cases bf with
    | connectionError m => simp at h; exact ⟨m, h.symm⟩
    | clientError c m =>
      simp at h
      exact ⟨_, h.symm⟩
    | otherError m => simp at h; exact ⟨m, h.symm⟩

/-- With a falsy assume_role every resolution failure is the raw
unwrapped exception of the session get_credentials call. -/
theorem resolvedCred_error_of_no_role (config : AWSAuth) (env : StsEnv)
    (e : PyExc) (hrole : headerTruthy config.assume_role = false)
    (h : resolvedCred config env = .error e) :
    ∃ m, e = .rawError m := by
  rw [resolvedCred, hrole] at h
  simp only [Bool.not_false, if_true] at h
  cases henv : env.get_credentials_result with
  | ok fc => rw [henv] at h; simp at h
  | error m => rw [henv] at h; simp at h; exact ⟨m, h.symm⟩

/-- Every key of the datasource map occurs inside the rendered entry
list of its Python repr. -/
theorem mem_pyDictEntries (k : String) :
    ∀ ds : List (String × String), k ∈ ds.map Prod.fst →
      ∃ pre post, pyDictEntries ds = pre ++ k ++ post := by
  intro ds
  induction ds with
  | nil => intro hk; simp at hk
  | cons e rest ih =>
    intro hk
    rw [List.map_cons] at hk
    rcases List.mem_cons.mp hk with hk1 | hk2
    · subst hk1
      cases rest with
      | nil =>
        refine ⟨"\x27", "\x27: " ++ e.2, ?_⟩
        simp [pyDictEntries, pyDictEntryRepr, String.append_assoc]
      | cons f rest2 =>
        refine ⟨"\x27", "\x27: " ++ e.2 ++ ", " ++ pyDictEntries (f :: rest2), ?_⟩
        simp [pyDictEntries, pyDictEntryRepr, String.append_assoc]
    · rcases ih hk2 with ⟨pre, post, hpq⟩
      cases rest with
      | nil => simp at hk2
      | cons f rest2 =>
        refine ⟨pyDictEntryRepr e ++ ", " ++ pre, post, ?_⟩
        simp [pyDictEntries, hpq, String.append_assoc]

/-- Every key of the datasource map occurs inside its Python repr. -/
theorem mem_pyDictRepr (k : String) (ds : List (String × String))
    (hk : k ∈ ds.map Prod.fst) :
    ∃ pre post, pyDictRepr ds = pre ++ k ++ post := by
  rcases mem_pyDictEntries k ds hk with ⟨pre, post, h⟩
  exact ⟨"\x7b" ++ pre, post ++ "\x7d", by simp [pyDictRepr, h, String.append_assoc]⟩

/-! Claim theorems. -/

/-- C1 counterexample: a JWT backend configured non-strict, given a
well-formed header but an undecodable token, does NOT return
(False, AnonymousUser()): the InvalidAuthorizationTokenException raised
by the DecodeError handler extends RapidaException rather than
AuthenticationException, so the non-strict degrade clause never sees it
and it propagates to the caller. -/
theorem jwt_nonstrict_decode_error_propagates :
    jwtAuthenticate ⟨"authorization", "secret", ["HS256"], false⟩
        (fun k => if k == "authorization" then some "sometoken" else Option.none)
        (.decodeError "Not enough segments") =
      .error (.invalidAuthorizationToken
        "unable to decode given token. Not enough segments") ∧
    jwtAuthenticate ⟨"authorization", "secret", ["HS256"], false⟩
        (fun k => if k == "authorization" then some "sometoken" else Option.none)
        (.decodeError "Not enough segments") ≠
      .ok (false, .anonymous) := by
  refine ⟨rfl, ?_⟩
  intro h
  rw [show jwtAuthenticate ⟨"authorization", "secret", ["HS256"], false⟩
      (fun k => if k == "authorization" then some "sometoken" else Option.none)
      (.decodeError "Not enough segments") =
    .error (.invalidAuthorizationToken
      "unable to decode given token. Not enough segments") from rfl] at h
  exact Except.noConfusion h

/-- C1 (amended): with strict configuration false, a missing or empty
bearer header degrades to (False, AnonymousUser()); but an undecodable
token, and a decoded payload whose userId claim is absent or falsy, raise
InvalidAuthorizationTokenException to the caller even in non-strict mode,
because that exception class is not an AuthenticationException. -/
theorem jwt_nonstrict_degrade_contract
    (config : JwtAuthenticationConfig) (headers : String → Option String)
    (decode : JwtDecodeOutcome) (msg : String) (payload : List (String × PyVal))
    (hstrict : config.strict = false) :
    (headerTruthy (headers config.header_key) = false →
      jwtAuthenticate config headers decode = .ok (false, .anonymous)) ∧
    (headerTruthy (headers config.header_key) = true →
      jwtAuthenticate config headers (.decodeError msg) =
        .error (.invalidAuthorizationToken ("unable to decode given token. " ++ msg))) ∧
    (headerTruthy (headers config.header_key) = true →
      pyTruthyOpt (dictGet payload "userId") = false →
      jwtAuthenticate config headers (.ok payload) =
        .error (.invalidAuthorizationToken "invalid token payload.")) := by
  refine ⟨?_, ?_, ?_⟩
  · intro h
    simp [jwtAuthenticate, jwtAuthBody, h, PyExc.isAuthenticationException, hstrict]
  · intro h
    simp [jwtAuthenticate, jwtAuthBody, h, PyExc.isAuthenticationException]
  · intro h h2
    simp [jwtAuthenticate, jwtAuthBody, h, h2, PyExc.isAuthenticationException]

/-- C1 witness: the missing-header case of the amended contract at a
concrete configuration. -/
theorem jwt_nonstrict_degrade_contract_witness :
    jwtAuthenticate ⟨"authorization", "secret", ["HS256"], false⟩
        (fun _ => Option.none) (.ok []) = .ok (false, .anonymous) :=
  (jwt_nonstrict_degrade_contract ⟨"authorization", "secret", ["HS256"], false⟩
    (fun _ => Option.none) (.ok []) "" [] rfl).1 rfl

/-- C10: a decoded payload whose userId claim is present but falsy is
rejected with exactly the InvalidAuthorizationTokenException of the
missing-userId case, for every configuration and payload. -/
theorem jwt_falsy_user_id_rejected
    (config : JwtAuthenticationConfig) (headers : String → Option String)
    (payload payload2 : List (String × PyVal)) (v : PyVal)
    (hh : headerTruthy (headers config.header_key) = true)
    (hv : dictGet payload "userId" = some v) (hfalsy : pyTruthy v = false)
    (habsent : dictGet payload2 "userId" = Option.none) :
    jwtAuthenticate config headers (.ok payload) =
      .error (.invalidAuthorizationToken "invalid token payload.") ∧
    jwtAuthenticate config headers (.ok payload2) =
      .error (.invalidAuthorizationToken "invalid token payload.") := by
  constructor
  · simp [jwtAuthenticate, jwtAuthBody, hh, pyTruthyOpt, hv, hfalsy,
      PyExc.isAuthenticationException]
  · simp [jwtAuthenticate, jwtAuthBody, hh, pyTruthyOpt, habsent,
      PyExc.isAuthenticationException]

/-- C10 witness: a payload carrying userId 0 and the empty payload are
both rejected with the same error, at a concrete configuration. -/
theorem jwt_falsy_user_id_rejected_witness :
    jwtAuthenticate ⟨"authorization", "secret", ["HS256"], true⟩
        (fun k => if k == "authorization" then some "tok" else Option.none)
        (.ok [("userId", .int 0)]) =
      .error (.invalidAuthorizationToken "invalid token payload.") ∧
    jwtAuthenticate ⟨"authorization", "secret", ["HS256"], true⟩
        (fun k => if k == "authorization" then some "tok" else Option.none)
        (.ok []) =
      .error (.invalidAuthorizationToken "invalid token payload.") :=
  jwt_falsy_user_id_rejected ⟨"authorization", "secret", ["HS256"], true⟩
    (fun k => if k == "authorization" then some "tok" else Option.none)
    [("userId", .int 0)] [] (.int 0) rfl rfl rfl rfl

/-- C7: for a project id string that converts to the integer n,
select_project sets currentProject to the first projectRoles entry whose
projectId equals n and returns it; with no matching entry it returns None
and leaves the user unchanged. -/
theorem select_project_contract (u : AuthenticatedUserS) (pid : String) (n : Int)
    (hn : pyIntOfString pid = some n) :
    (∀ p, u.projectRoles.find? (fun q => q.projectId == n) = some p →
      select_project u pid = .ok ({ u with currentProject := some p }, some p)) ∧
    (u.projectRoles.find? (fun q => q.projectId == n) = Option.none →
      select_project u pid = .ok (u, Option.none)) := by
  constructor
  · intro p hp
    cases hroles : u.projectRoles with
    | nil => rw [hroles] at hp; simp at hp
    | cons a l =>
      rw [hroles] at hp
      simp [select_project, hroles, hn, hp]
  · intro hnone
    cases hroles : u.projectRoles with
    | nil => simp [select_project, hroles]
    | cons a l =>
      rw [hroles] at hnone
      simp [select_project, hroles, hn, hnone]

/-- C7 witness: selecting project 42 from a one-entry role list sets and
returns that entry; selecting from a non-matching list returns None and
leaves the user unchanged. -/
theorem select_project_contract_witness :
    select_project
        ⟨⟨1, "n", "e"⟩, ⟨1, "t", "b"⟩, ⟨1, 2, "r", "o"⟩,
          [⟨5, 42, "admin", "p"⟩], Option.none⟩ "42" =
      .ok (⟨⟨1, "n", "e"⟩, ⟨1, "t", "b"⟩, ⟨1, 2, "r", "o"⟩,
          [⟨5, 42, "admin", "p"⟩], some ⟨5, 42, "admin", "p"⟩⟩,
        some ⟨5, 42, "admin", "p"⟩) ∧
    select_project
        ⟨⟨1, "n", "e"⟩, ⟨1, "t", "b"⟩, ⟨1, 2, "r", "o"⟩,
          [⟨5, 43, "admin", "p"⟩], Option.none⟩ "42" =
      .ok (⟨⟨1, "n", "e"⟩, ⟨1, "t", "b"⟩, ⟨1, 2, "r", "o"⟩,
          [⟨5, 43, "admin", "p"⟩], Option.none⟩, Option.none) :=
  ⟨(select_project_contract
      ⟨⟨1, "n", "e"⟩, ⟨1, "t", "b"⟩, ⟨1, 2, "r", "o"⟩,
        [⟨5, 42, "admin", "p"⟩], Option.none⟩ "42" 42 (by decide)).1
      ⟨5, 42, "admin", "p"⟩ (by decide),
    (select_project_contract
      ⟨⟨1, "n", "e"⟩, ⟨1, "t", "b"⟩, ⟨1, 2, "r", "o"⟩,
        [⟨5, 43, "admin", "p"⟩], Option.none⟩ "42" 42 (by decide)).2
      (by decide)⟩

/-- C5 counterexample: a request with the authorization header set but no
x-auth-id raises MissingAuthorizationKeyException inside the body, but
the remote-token backend catches every AuthenticationException and always
degrades, so authenticate returns (False, AnonymousUser()) and no error
reaches the boundary translator: no 400 envelope is produced. -/
theorem token_missing_header_no_envelope_cex :
    tokenAuthBody
        (fun k => if k == "authorization" then some "opaquetoken" else Option.none)
        (.ok []) =
      .error (.missingAuthorizationKey "token-auth" "Missing Authorization Key") ∧
    tokenAuthenticate
        (fun k => if k == "authorization" then some "opaquetoken" else Option.none)
        (.ok []) = .ok (false, .anonymous) ∧
    boundaryEnvelope (tokenAuthenticate
        (fun k => if k == "authorization" then some "opaquetoken" else Option.none)
        (.ok [])) = Option.none :=
  ⟨rfl, rfl, rfl⟩

/-- C5 (amended): with the authorization header present and x-auth-id
missing or empty, the Missing-Authorization error is raised internally
and immediately caught by the always-degrading handler of the
remote-token backend; authenticate returns (False, AnonymousUser()) and
the exception translator produces no error envelope. -/
theorem token_missing_header_degrades
    (headers : String → Option String) (resolve : ResolveOutcome)
    (h1 : headerTruthy (headers "authorization") = true)
    (h2 : headerTruthy (headers "x-auth-id") = false) :
    tokenAuthBody headers resolve =
      .error (.missingAuthorizationKey "token-auth" "Missing Authorization Key") ∧
    tokenAuthenticate headers resolve = .ok (false, .anonymous) ∧
    boundaryEnvelope (tokenAuthenticate headers resolve) = Option.none := by
  have hb : tokenAuthBody headers resolve =
      .error (.missingAuthorizationKey "token-auth" "Missing Authorization Key") := by
    simp [tokenAuthBody, h1, h2]
  refine ⟨hb, ?_, ?_⟩
  · simp [tokenAuthenticate, hb, PyExc.isAuthenticationException]
  · simp [tokenAuthenticate, hb, PyExc.isAuthenticationException, boundaryEnvelope]

/-- C5 witness: the amended contract at concrete headers carrying only
the authorization token. -/
theorem token_missing_header_degrades_witness :
    tokenAuthenticate
        (fun k => if k == "authorization" then some "tok" else Option.none)
        (.ok [("user", .none)]) = .ok (false, .anonymous) :=
  (token_missing_header_degrades
    (fun k => if k == "authorization" then some "tok" else Option.none)
    (.ok [("user", .none)]) rfl rfl).2.1

/-- C9 counterexample: a fully authenticated request carrying the
non-decimal x-project-id abc does NOT raise ValueError when the resolved
user has no project roles, because the int conversion sits inside the
loop over projectRoles and is never evaluated; authenticate returns
(True, user) instead of propagating an untyped exception. -/
theorem token_bad_project_id_empty_roles_cex :
    tokenAuthenticate
        (fun k =>
          if k == "authorization" then some "tok"
          else if k == "x-auth-id" then some "7"
          else if k == "x-project-id" then some "abc"
          else Option.none)
        (.ok [("user", .dict [("id", .int 1), ("name", .str "n"), ("email", .str "e")]),
          ("token", .dict [("id", .int 1), ("token", .str "t"), ("tokenType", .str "b")]),
          ("organizationRole", .dict [("id", .int 1), ("organizationId", .int 2),
            ("role", .str "admin"), ("organizationName", .str "o")]),
          ("projectRoles", .list [])]) =
      .ok (true, .authenticated
        ⟨⟨1, "n", "e"⟩, ⟨1, "t", "b"⟩, ⟨1, 2, "admin", "o"⟩, [], Option.none⟩) ∧
    pyIntOfString "abc" = Option.none :=
  ⟨rfl, rfl⟩

/-- C9 (amended): when the request passes authentication, carries a
nonempty x-project-id that is not a decimal integer string, and the
resolved user has at least one project role, the int conversion inside
select_project raises ValueError, which is neither an
AuthenticationException nor a RapidaException, so authenticate propagates
it as a raw untyped exception. -/
theorem token_bad_project_id_contract
    (headers : String → Option String) (user_info : List (String × PyVal))
    (user : AuthenticatedUserS) (pid : String)
    (h1 : headerTruthy (headers "authorization") = true)
    (h2 : headerTruthy (headers "x-auth-id") = true)
    (h4 : pyTruthy (.dict user_info) = true)
    (h5 : dictHasKey user_info "user" = true)
    (h6 : parseAuthenticatedUser user_info = some user)
    (h7 : headers "x-project-id" = some pid)
    (h8 : (pid == "") = false)
    (h9 : pyIntOfString pid = Option.none)
    (h10 : user.projectRoles ≠ []) :
    tokenAuthenticate headers (.ok user_info) =
      .error (.valueError ("invalid literal for int() with base 10: " ++ pid)) ∧
    (PyExc.valueError
      ("invalid literal for int() with base 10: " ++ pid)).isAuthenticationException =
        false ∧
    (PyExc.valueError
      ("invalid literal for int() with base 10: " ++ pid)).isRapidaException = false := by
  cases hroles : user.projectRoles with
  | nil => exact absurd hroles h10
  | cons a l =>
    have hsel : select_project user pid =
        .error (.valueError ("invalid literal for int() with base 10: " ++ pid)) := by
      simp [select_project, hroles, h9]
    have h8b : headerTruthy (some pid) = true := by simp [headerTruthy, h8]
    have hbody : tokenAuthBody headers (.ok user_info) =
        .error (.valueError ("invalid literal for int() with base 10: " ++ pid)) := by
      simp [tokenAuthBody, h1, h2, h4, h5, h6, h7, h8b, hsel]
    refine ⟨?_, rfl, rfl⟩
    simp [tokenAuthenticate, hbody, PyExc.isAuthenticationException,
      PyExc.isRapidaException]

/-- C9 witness: the amended contract at a concrete request whose resolved
user has one project role. -/
theorem token_bad_project_id_contract_witness :
    tokenAuthenticate
        (fun k =>
          if k == "authorization" then some "tok"
          else if k == "x-auth-id" then some "7"
          else if k == "x-project-id" then some "abc"
          else Option.none)
        (.ok [("user", .dict [("id", .int 1), ("name", .str "n"), ("email", .str "e")]),
          ("token", .dict [("id", .int 1), ("token", .str "t"), ("tokenType", .str "b")]),
          ("organizationRole", .dict [("id", .int 1), ("organizationId", .int 2),
            ("role", .str "admin"), ("organizationName", .str "o")]),
          ("projectRoles", .list [.dict [("id", .int 5), ("projectId", .int 42),
            ("role", .str "admin"), ("projectName", .str "p")]])]) =
      .error (.valueError ("invalid literal for int() with base 10: " ++ "abc")) :=
  (token_bad_project_id_contract
    (fun k =>
      if k == "authorization" then some "tok"
      else if k == "x-auth-id" then some "7"
      else if k == "x-project-id" then some "abc"
      else Option.none)
    [("user", .dict [("id", .int 1), ("name", .str "n"), ("email", .str "e")]),
      ("token", .dict [("id", .int 1), ("token", .str "t"), ("tokenType", .str "b")]),
      ("organizationRole", .dict [("id", .int 1), ("organizationId", .int 2),
        ("role", .str "admin"), ("organizationName", .str "o")]),
      ("projectRoles", .list [.dict [("id", .int 5), ("projectId", .int 42),
        ("role", .str "admin"), ("projectName", .str "p")]])]
    ⟨⟨1, "n", "e"⟩, ⟨1, "t", "b"⟩, ⟨1, 2, "admin", "o"⟩,
      [⟨5, 42, "admin", "p"⟩], Option.none⟩ "abc"
    rfl rfl rfl rfl rfl rfl rfl rfl (by decide)).1

/-- C4 counterexample: resolving the unregistered name s3 through get_me
raises ConnectorIllegalNameException with numeric code 2002, not the
Connector-Not-There error (2003) the claim states. -/
theorem registry_resolve_illegal_name_cex :
    getMe "s3" [("redis", "<RedisConnector object>")] =
      .error (.connectorIllegalName "s3"
        ("s3 not found in context. choose possible keys " ++
          pyDictRepr [("redis", "<RedisConnector object>")])) ∧
    (raisedExc (getMe "s3" [("redis", "<RedisConnector object>")])).map
        PyExc.isConnectorNotThere = some false ∧
    (raisedExc (getMe "s3" [("redis", "<RedisConnector object>")])).map
        PyExc.error_code = some (some (rapidaErrorCode "RAPIDA" "KN_API" 2002)) ∧
    rapidaErrorCode "RAPIDA" "KN_API" 2002 ≠ rapidaErrorCode "RAPIDA" "KN_API" 2003 :=
  ⟨rfl, rfl, rfl, by decide⟩

/-- C4 (amended): resolving a name absent from the request datasource
always raises ConnectorIllegalNameException (numeric code 2002) whose
message names the requested key and interpolates the datasource dict,
within which every registered key occurs. -/
theorem registry_resolve_contract (name : String) (ds : List (String × String))
    (h : datasourceGet ds name = Option.none) :
    getMe name ds = .error (.connectorIllegalName name
      (name ++ " not found in context. choose possible keys " ++ pyDictRepr ds)) ∧
    (PyExc.connectorIllegalName name
      (name ++ " not found in context. choose possible keys " ++
        pyDictRepr ds)).error_code = some (rapidaErrorCode "RAPIDA" "KN_API" 2002) ∧
    ∀ k ∈ ds.map Prod.fst, ∃ pre post, pyDictRepr ds = pre ++ k ++ post :=
  ⟨by simp [getMe, h], rfl, fun k hk => mem_pyDictRepr k ds hk⟩

/-- C4 witness: the amended contract at the concrete name s3 against a
datasource holding only redis. -/
theorem registry_resolve_contract_witness :
    getMe "s3" [("redis", "<RedisConnector at 0x1>")] =
      .error (.connectorIllegalName "s3"
        ("s3 not found in context. choose possible keys " ++
          pyDictRepr [("redis", "<RedisConnector at 0x1>")])) :=
  (registry_resolve_contract "s3" [("redis", "<RedisConnector at 0x1>")] rfl).1

/-- C6 counterexample: a raised BridgeClientException carries the raw
numeric error code 1001, not the composite string the claim states for
every taxonomy member, because BridgeException.__init__ does not delegate
to RapidaException.__init__. -/
theorem bridge_error_code_not_composite_cex :
    (PyExc.bridgeClient "auth-bridge" "connection refused").error_code =
      some (.int 1001) ∧
    (PyExc.bridgeClient "auth-bridge" "connection refused").error_code ≠
      some (rapidaErrorCode "RAPIDA" "KN_API" 1001) :=
  ⟨rfl, by decide⟩

/-- C6 (amended): every raised taxonomy error outside the bridge family
renders error_code as the composite string built from the RAPIDA prefix,
the KN_API service code and its fixed numeric code; the bridge subtypes
instead carry their raw numeric code. -/
theorem error_code_rendering_contract (e : PyExc)
    (h : e.isRapidaException = true) :
    (e.isBridgeException = false →
      ∃ n : Int, e.error_code = some (rapidaErrorCode "RAPIDA" "KN_API" n)) ∧
    (e.isBridgeException = true → ∃ n : Int, e.error_code = some (.int n)) := by
  cases e with
  | missingAuthorizationKey a m =>
    exact ⟨fun _ => ⟨3001, rfl⟩, fun hb => by simp [PyExc.isBridgeException] at hb⟩
  | invalidAuthorizationToken m =>
    exact ⟨fun _ => ⟨3002, rfl⟩, fun hb => by simp [PyExc.isBridgeException] at hb⟩
  | connectorClientFailure n m =>
    exact ⟨fun _ => ⟨2001, rfl⟩, fun hb => by simp [PyExc.isBridgeException] at hb⟩
  | connectorIllegalName n m =>
    exact ⟨fun _ => ⟨2002, rfl⟩, fun hb => by simp [PyExc.isBridgeException] at hb⟩
  | connectorNotThere n m =>
    exact ⟨fun _ => ⟨2003, rfl⟩, fun hb => by simp [PyExc.isBridgeException] at hb⟩
  | connectorClientInternalFailure n m =>
    exact ⟨fun _ => ⟨2004, rfl⟩, fun hb => by simp [PyExc.isBridgeException] at hb⟩
  | bridgeClient n m =>
    exact ⟨fun hb => by simp [PyExc.isBridgeException] at hb, fun _ => ⟨1001, rfl⟩⟩
  | bridgeInternal n m =>
    exact ⟨fun hb => by simp [PyExc.isBridgeException] at hb, fun _ => ⟨1002, rfl⟩⟩
  | valueError m => simp [PyExc.isRapidaException] at h
  | validationError m => simp [PyExc.isRapidaException] at h
  | rawError m => simp [PyExc.isRapidaException] at h

/-- C6 witness: the amended contract at one connector-family error and
one bridge-family error. -/
theorem error_code_rendering_contract_witness :
    (∃ n : Int, (PyExc.connectorNotThere "redis" "not enabled").error_code =
      some (rapidaErrorCode "RAPIDA" "KN_API" n)) ∧
    (∃ n : Int, (PyExc.bridgeClient "auth-bridge" "boom").error_code =
      some (.int n)) :=
  ⟨(error_code_rendering_contract (.connectorNotThere "redis" "not enabled") rfl).1 rfl,
    (error_code_rendering_contract (.bridgeClient "auth-bridge" "boom") rfl).2 rfl⟩

/-- C2: a stored entry strictly younger than 600 seconds is returned
without any resolver call; otherwise (absent or aged 600 seconds or
more) exactly one resolution happens and, on success, the result is
stored under the session name with the current time — replacing an
expired entry — and returned. -/
theorem sts_cache_contract (config : AWSAuth) (env : StsEnv) (now : Int)
    (store : CredStore) (sn : String) (c c2 : Cred) (t : Int) :
    (storeGet store sn = some (c, t) → now - t < 600 →
      get_temporary_credentials config env now store sn = ⟨.ok c, store, 0⟩) ∧
    (storeGet store sn = Option.none →
      (resolvedCred config env = .ok c2 →
        get_temporary_credentials config env now store sn =
          ⟨.ok c2, storeSet store sn (c2, now), 1⟩) ∧
      (get_temporary_credentials config env now store sn).resolverCalls = 1) ∧
    (storeGet store sn = some (c, t) → ¬(now - t < 600) →
      (resolvedCred config env = .ok c2 →
        get_temporary_credentials config env now store sn =
          ⟨.ok c2, storeSet (storeErase store sn) sn (c2, now), 1⟩) ∧
      (get_temporary_credentials config env now store sn).resolverCalls = 1) := by
  refine ⟨fun h ha => gtc_hit config env now store sn c t h ha,
    fun h => ?_, fun h ha => ?_⟩
  · rw [gtc_miss config env now store sn h]
    exact ⟨fun hr => resolveAndStore_ok config env now store sn c2 hr,
      resolveAndStore_calls config env now store sn⟩
  · rw [gtc_expired config env now store sn c t h ha]
    exact ⟨fun hr => resolveAndStore_ok config env now (storeErase store sn) sn c2 hr,
      resolveAndStore_calls config env now (storeErase store sn) sn⟩

/-- C2 witness: a fresh entry aged 599 seconds is served from the store
with zero resolver calls, and a call on an empty store resolves once and
stores the payload with the current time. -/
theorem sts_cache_contract_witness :
    get_temporary_credentials
        ⟨some "us-east-1", Option.none, Option.none, Option.none⟩
        ⟨.ok ⟨"A", "S", Option.none⟩, .ok ⟨"B", "C", "D"⟩⟩ 699
        [("sess", ⟨"x", "y", Option.none, Option.none⟩, 100)] "sess" =
      ⟨.ok ⟨"x", "y", Option.none, Option.none⟩,
        [("sess", ⟨"x", "y", Option.none, Option.none⟩, 100)], 0⟩ ∧
    get_temporary_credentials
        ⟨some "us-east-1", Option.none, Option.none, Option.none⟩
        ⟨.ok ⟨"A", "S", Option.none⟩, .ok ⟨"B", "C", "D"⟩⟩ 100 [] "sess" =
      ⟨.ok ⟨"A", "S", Option.none, some "us-east-1"⟩,
        storeSet [] "sess" (⟨"A", "S", Option.none, some "us-east-1"⟩, 100), 1⟩ :=
  ⟨(sts_cache_contract ⟨some "us-east-1", Option.none, Option.none, Option.none⟩
      ⟨.ok ⟨"A", "S", Option.none⟩, .ok ⟨"B", "C", "D"⟩⟩ 699
      [("sess", ⟨"x", "y", Option.none, Option.none⟩, 100)] "sess"
      ⟨"x", "y", Option.none, Option.none⟩
      ⟨"A", "S", Option.none, some "us-east-1"⟩ 100).1 rfl (by decide),
    ((sts_cache_contract ⟨some "us-east-1", Option.none, Option.none, Option.none⟩
      ⟨.ok ⟨"A", "S", Option.none⟩, .ok ⟨"B", "C", "D"⟩⟩ 100 [] "sess"
      ⟨"x", "y", Option.none, Option.none⟩
      ⟨"A", "S", Option.none, some "us-east-1"⟩ 100).2.1 rfl).1 rfl⟩

/-- C3 counterexample: with no assume_role configured, a failing
credential resolution propagates the raw SDK exception instead of the
typed connector-client-failure the claim states, and the store is not
identical to its pre-call state either: the expired entry found on the
way was lazily evicted. -/
theorem sts_failure_raw_error_cex :
    get_temporary_credentials
        ⟨some "us-east-1", Option.none, Option.none, Option.none⟩
        ⟨.error "EndpointConnectionError", .ok ⟨"A", "S", "T"⟩⟩ 1000
        [("sess", ⟨"x", "y", Option.none, Option.none⟩, 100)] "sess" =
      ⟨.error (.rawError "EndpointConnectionError"), [], 1⟩ ∧
    (PyExc.rawError "EndpointConnectionError").isRapidaException = false ∧
    ([("sess", (⟨"x", "y", Option.none, Option.none⟩ : Cred), (100 : Int))] :
      CredStore) ≠ [] := by
  refine ⟨rfl, rfl, ?_⟩
  intro h
  exact List.noConfusion h

/-- C3 (amended): on a failed resolution no entry is stored for the
failed session (the only possible store change is the lazy eviction of an
already-expired entry found during the lookup); when assume_role is
configured the raised error is the typed ConnectorClientFailureException
carrying the sts connector name, and when it is not, the raw resolver
exception propagates unwrapped. -/
theorem sts_failure_contract (config : AWSAuth) (env : StsEnv) (now : Int)
    (store : CredStore) (sn : String) (e : PyExc) (c : Cred) (t : Int)
    (hfail : resolvedCred config env = .error e) :
    (storeGet store sn = Option.none →
      get_temporary_credentials config env now store sn = ⟨.error e, store, 1⟩) ∧
    (storeGet store sn = some (c, t) → ¬(now - t < 600) →
      get_temporary_credentials config env now store sn =
        ⟨.error e, storeErase store sn, 1⟩) ∧
    (headerTruthy config.assume_role = true →
      ∃ m, e = .connectorClientFailure "sts" m) ∧
    (headerTruthy config.assume_role = false → ∃ m, e = .rawError m) := by
  refine ⟨fun h => ?_, fun h ha => ?_,
    fun hrole => resolvedCred_error_of_role config env e hrole hfail,
    fun hrole => resolvedCred_error_of_no_role config env e hrole hfail⟩
  · rw [gtc_miss config env now store sn h]
    exact resolveAndStore_error config env now store sn e hfail
  · rw [gtc_expired config env now store sn c t h ha]
    exact resolveAndStore_error config env now (storeErase store sn) sn e hfail

/-- C3 witness: with a configured role and a connection failure, the call
on an empty store raises the typed sts connector failure and stores
nothing. -/
theorem sts_failure_contract_witness :
    get_temporary_credentials
        ⟨some "us-east-1", Option.none, Option.none, some "arn:aws:iam::1:role/r"⟩
        ⟨.ok ⟨"A", "S", Option.none⟩, .error (.connectionError "unreachable")⟩
        1000 [] "sess" =
      ⟨.error (.connectorClientFailure "sts" "unreachable"), [], 1⟩ ∧
    (∃ m, (PyExc.connectorClientFailure "sts" "unreachable") =
      .connectorClientFailure "sts" m) :=
  ⟨(sts_failure_contract
      ⟨some "us-east-1", Option.none, Option.none, some "arn:aws:iam::1:role/r"⟩
      ⟨.ok ⟨"A", "S", Option.none⟩, .error (.connectionError "unreachable")⟩
      1000 [] "sess" (.connectorClientFailure "sts" "unreachable")
      ⟨"x", "y", Option.none, Option.none⟩ 0 rfl).1 rfl,
    (sts_failure_contract
      ⟨some "us-east-1", Option.none, Option.none, some "arn:aws:iam::1:role/r"⟩
      ⟨.ok ⟨"A", "S", Option.none⟩, .error (.connectionError "unreachable")⟩
      1000 [] "sess" (.connectorClientFailure "sts" "unreachable")
      ⟨"x", "y", Option.none, Option.none⟩ 0 rfl).2.2.1 rfl⟩

/-- C8: the credentials store is one shared state: a successful
resolution by any instance stores the payload under the session name at
the current time, and a subsequent call by ANY instance — whatever its
AWS configuration and resolver environment — returns that cached payload
with zero resolver calls while the entry is younger than 600 seconds. -/
theorem sts_store_shared_across_instances
    (config1 config2 : AWSAuth) (env1 env2 : StsEnv) (store0 store : CredStore)
    (sn : String) (now1 now2 : Int) (c : Cred) :
    (resolvedCred config1 env1 = .ok c → storeGet store0 sn = Option.none →
      storeGet (get_temporary_credentials config1 env1 now1 store0 sn).store sn =
        some (c, now1)) ∧
    (storeGet store sn = some (c, now1) → now2 - now1 < 600 →
      get_temporary_credentials config2 env2 now2 store sn = ⟨.ok c, store, 0⟩) := by
  constructor
  · intro hr h0
    rw [gtc_miss config1 env1 now1 store0 sn h0,
      resolveAndStore_ok config1 env1 now1 store0 sn c hr]
    exact storeGet_storeSet store0 sn (c, now1)
  · intro h ha
    exact gtc_hit config2 env2 now2 store sn c now1 h ha

/-- C8 witness: an instance without a role caches the resolved payload at
time 100; a second instance with a different region, a configured role
and a failing resolver still returns that cached payload at time 699 with
zero resolver calls. -/
theorem sts_store_shared_across_instances_witness :
    get_temporary_credentials
        ⟨some "eu-west-1", Option.none, Option.none, some "arn:aws:iam::1:role/r"⟩
        ⟨.error "unreachable", .error (.connectionError "x")⟩ 699
        (get_temporary_credentials
          ⟨some "us-east-1", Option.none, Option.none, Option.none⟩
          ⟨.ok ⟨"A", "S", Option.none⟩, .ok ⟨"B", "C", "D"⟩⟩ 100 [] "sess").store
        "sess" =
      ⟨.ok ⟨"A", "S", Option.none, some "us-east-1"⟩,
        (get_temporary_credentials
          ⟨some "us-east-1", Option.none, Option.none, Option.none⟩
          ⟨.ok ⟨"A", "S", Option.none⟩, .ok ⟨"B", "C", "D"⟩⟩ 100 [] "sess").store,
        0⟩ :=
  (sts_store_shared_across_instances
    ⟨some "us-east-1", Option.none, Option.none, Option.none⟩
    ⟨some "eu-west-1", Option.none, Option.none, some "arn:aws:iam::1:role/r"⟩
    ⟨.ok ⟨"A", "S", Option.none⟩, .ok ⟨"B", "C", "D"⟩⟩
    ⟨.error "unreachable", .error (.connectionError "x")⟩ []
    (get_temporary_credentials
      ⟨some "us-east-1", Option.none, Option.none, Option.none⟩
      ⟨.ok ⟨"A", "S", Option.none⟩, .ok ⟨"B", "C", "D"⟩⟩ 100 [] "sess").store
    "sess" 100 699 ⟨"A", "S", Option.none, some "us-east-1"⟩).2
    ((sts_store_shared_across_instances
      ⟨some "us-east-1", Option.none, Option.none, Option.none⟩
      ⟨some "eu-west-1", Option.none, Option.none, some "arn:aws:iam::1:role/r"⟩
      ⟨.ok ⟨"A", "S", Option.none⟩, .ok ⟨"B", "C", "D"⟩⟩
      ⟨.error "unreachable", .error (.connectionError "x")⟩ [] []
      "sess" 100 699 ⟨"A", "S", Option.none, some "us-east-1"⟩).1 rfl rfl)
    (by decide)

end DocumentApi
